import Mathlib

/-!
Verification development for the Proxmox NAS web UI (`src/web-ui/app.py`),
a Flask application orchestrating site configuration persistence, external
tool invocation (USB bootstrap creation, Ansible deployment) and status
aggregation. Every definition below is a shallow embedding of a function
of that file; external libraries (yaml, json, subprocess) are modelled by
their observable contracts.
-/

namespace ProxmoxNas

/-! ## YAML-like value trees

`yaml.dump` / `yaml.safe_load` operate on Python dict/list/str/int trees;
we embed those trees directly. -/

inductive Yaml where
  | str : String → Yaml
  | int : Int → Yaml
  | list : List Yaml → Yaml
  | map : List (String × Yaml) → Yaml

/-- Lookup of a key in a `Yaml.map`; `none` on non-maps or missing keys. -/
def Yaml.lookup : Yaml → String → Option Yaml
  | .map kvs, k => kvs.lookup k
  | _, _ => none

def Yaml.asStr : Yaml → Option String
  | .str s => some s
  | _ => none

def Yaml.asInt : Yaml → Option Int
  | .int n => some n
  | _ => none

def strListOf : List Yaml → Option (List String)
  | [] => some []
  | y :: rest =>
      match y.asStr, strListOf rest with
      | some s, some t => some (s :: t)
      | _, _ => none

def Yaml.asStrList : Yaml → Option (List String)
  | .list ys => strListOf ys
  | _ => none

/-! ## SiteConfig data model

The record shape built by `new_site` (app.py lines 60-75). -/

structure SiteConfig where
  site_name : String
  vlan_id : Int
  ip_range : String
  system_disks : List String
  data_disks : List String
  raid_level : String
  api_host : String
  api_user : String
deriving DecidableEq, Repr

/-- The dict literal built in `new_site` (app.py lines 60-75), as the Yaml
tree `yaml.dump` serializes. -/
def yamlOfSiteConfig (c : SiteConfig) : Yaml :=
  .map [("site_name", .str c.site_name),
        ("network", .map [("vlan_id", .int c.vlan_id),
                          ("ip_range", .str c.ip_range)]),
        ("storage", .map [("system_disks", .list (c.system_disks.map .str)),
                          ("data_disks", .list (c.data_disks.map .str)),
                          ("raid_level", .str c.raid_level)]),
        ("proxmox", .map [("api_host", .str c.api_host),
                          ("api_user", .str c.api_user)])]

/-- Reading a stored record back into the typed `SiteConfig` shape of the
spec's §3 data model: extract the eight fields from the Yaml tree. -/
def siteConfigOfYaml (y : Yaml) : Option SiteConfig := do
  let name ← (y.lookup "site_name").bind Yaml.asStr
  let network ← y.lookup "network"
  let vlan ← (network.lookup "vlan_id").bind Yaml.asInt
  let ipRange ← (network.lookup "ip_range").bind Yaml.asStr
  let storage ← y.lookup "storage"
  let sysDisks ← (storage.lookup "system_disks").bind Yaml.asStrList
  let dataDisks ← (storage.lookup "data_disks").bind Yaml.asStrList
  let raid ← (storage.lookup "raid_level").bind Yaml.asStr
  let proxmox ← y.lookup "proxmox"
  let apiHost ← (proxmox.lookup "api_host").bind Yaml.asStr
  let apiUser ← (proxmox.lookup "api_user").bind Yaml.asStr
  pure { site_name := name, vlan_id := vlan, ip_range := ipRange,
         system_disks := sysDisks, data_disks := dataDisks, raid_level := raid,
         api_host := apiHost, api_user := apiUser }

/-! ## Process invocation

Every external call in app.py is `subprocess.run(list, capture_output=True,
text=True, cwd=..)`; no call passes `shell=True` (so no shell interprets the
vector) and no call passes `timeout=`. We record exactly the keyword surface
of each call site. -/

structure SubprocessCall where
  argv : List String
  captureOutput : Bool
  text : Bool
  cwd : Option String
  shell : Bool
  timeout : Option Nat
deriving DecidableEq, Repr

/-- The `subprocess.run` invocation built by `create_usb`
(app.py lines 97-101). -/
def createUsbCall (siteName usbDevice : String) : SubprocessCall :=
  { argv := ["/opt/brewnix/vendor/proxmox-nas/bootstrap/create-nas-usb.sh",
             "--site-config",
             "/opt/brewnix/config/sites/" ++ siteName ++ ".yml",
             "--usb-device", usbDevice],
    captureOutput := true, text := true, cwd := some "/opt/brewnix",
    shell := false, timeout := none }

/-- The `subprocess.run` invocation built by `deploy`
(app.py lines 118-122). -/
def deployCall (siteName : String) : SubprocessCall :=
  { argv := ["ansible-playbook",
             "/opt/brewnix/vendor/proxmox-nas/ansible/site.yml",
             "-e",
             "site_config_file=/opt/brewnix/config/sites/" ++ siteName ++ ".yml"],
    captureOutput := true, text := true, cwd := some "/opt/brewnix",
    shell := false, timeout := none }

/-- The four status-source invocations of `get_system_info` and
`get_git_status` (app.py lines 148, 152, 156, 190, 195). -/
def zpoolStatusCall : SubprocessCall :=
  { argv := ["zpool", "status", "-j"], captureOutput := true, text := true,
    cwd := none, shell := false, timeout := none }

def dfCall : SubprocessCall :=
  { argv := ["df", "-h", "/"], captureOutput := true, text := true,
    cwd := none, shell := false, timeout := none }

def freeCall : SubprocessCall :=
  { argv := ["free", "-h"], captureOutput := true, text := true,
    cwd := none, shell := false, timeout := none }

def gitStatusCall : SubprocessCall :=
  { argv := ["git", "status", "--porcelain"], captureOutput := true,
    text := true, cwd := some "/opt/brewnix", shell := false, timeout := none }

def gitLogCall : SubprocessCall :=
  { argv := ["git", "log", "--oneline", "-5"], captureOutput := true,
    text := true, cwd := some "/opt/brewnix", shell := false, timeout := none }

/-- All subprocess invocations the application can make, parameterized over
the user-supplied strings. -/
def allCalls (siteName usbDevice : String) : List SubprocessCall :=
  [createUsbCall siteName usbDevice, deployCall siteName,
   zpoolStatusCall, dfCall, freeCall, gitStatusCall, gitLogCall]

/-- Outcome of one `subprocess.run` call as observed by app.py: either the
process completed (any exit code; non-zero does not raise since `check` is
not passed) or the call itself raised (e.g. `FileNotFoundError` at spawn).
With no `timeout=` argument, `TimeoutExpired` can never be raised. -/
inductive RunResult where
  | completed : Int → String → String → RunResult
  | raised : String → RunResult
deriving DecidableEq, Repr

/-! ## Config persistence

`new_site` (app.py lines 77-82) computes the target path, `mkdir`s the
config directory and writes the YAML dump directly to the final path.
We record the exact sequence of filesystem operations it performs. -/

inductive FsOp where
  | mkdirAll : String → FsOp
  | writeFile : String → Yaml → FsOp
  | rename : String → String → FsOp

def FsOp.isRename : FsOp → Bool
  | .rename _ _ => true
  | _ => false

def FsOp.isDirectWriteTo (p : String) : FsOp → Bool
  | .writeFile q _ => q == p
  | _ => false

/-- Full path of a site's config file (app.py line 78). -/
def configPath (siteName : String) : String :=
  "/opt/brewnix/config/sites/" ++ siteName ++ ".yml"

/-- The filesystem operations performed by the save portion of `new_site`
(app.py lines 78-82), in program order: `CONFIG_DIR.mkdir(parents=True,
exist_ok=True)` then `open(config_file, 'w')` + `yaml.dump`. -/
def saveSiteOps (c : SiteConfig) : List FsOp :=
  [FsOp.mkdirAll "/opt/brewnix/config/sites",
   FsOp.writeFile (configPath c.site_name) (yamlOfSiteConfig c)]

/-- The config directory as a path-indexed file map (order-preserving,
replace-in-place on rewrite, as a directory of files behaves). -/
abbrev FileMap := List (String × Yaml)

def setEntry : FileMap → String → Yaml → FileMap
  | [], k, v => [(k, v)]
  | e :: rest, k, v =>
      if k == e.1 then (k, v) :: rest else e :: setEntry rest k v

def applyOp (fs : FileMap) : FsOp → FileMap
  | .mkdirAll _ => fs
  | .writeFile p c => setEntry fs p c
  | .rename src dst =>
      match fs.lookup src with
      | some c => setEntry (fs.filter (fun e => e.1 != src)) dst c
      | none => fs

def applyOps (fs : FileMap) (ops : List FsOp) : FileMap :=
  ops.foldl applyOp fs

/-- Effect of `new_site`'s save on the config directory. -/
def storeSave (fs : FileMap) (c : SiteConfig) : FileMap :=
  applyOps fs (saveSiteOps c)

/-- Reading one site's record back from the store: open the file at the
site's config path and interpret it as a `SiteConfig` (the typed shape the
`sites` view and the deploy invocation consume). -/
def storeLoad (fs : FileMap) (siteName : String) : Option SiteConfig :=
  (fs.lookup (configPath siteName)).bind siteConfigOfYaml

/-! ## Site creation handler (`new_site`, app.py lines 56-87) -/

/-- The POST form fields read by `new_site`. `getlist` fields are lists
(possibly empty, never null); the rest are raw strings. -/
structure SiteForm where
  site_name : String
  vlan_id : String
  ip_range : String
  system_disks : List String
  data_disks : List String
  raid_level : String
  api_host : String
  api_user : String
deriving DecidableEq, Repr

/-- One decimal digit's value, as Python `int()` accepts it. -/
def digitVal (c : Char) : Option Nat :=
  if c.isDigit then some (c.toNat - 48) else none

def natOfDigits (cs : List Char) : Option Nat :=
  cs.foldl (fun acc c => acc.bind fun n => (digitVal c).map fun d => 10 * n + d)
    (some 0)

/-- Python `int(s)` on a trimmed decimal literal: optional sign then at
least one digit; anything else raises `ValueError` (`none`). -/
def pyInt (s : String) : Option Int :=
  match s.data with
  | [] => none
  | '-' :: rest =>
      if rest = [] then none else (natOfDigits rest).map fun n => -(n : Int)
  | '+' :: rest =>
      if rest = [] then none else (natOfDigits rest).map fun n => (n : Int)
  | cs => (natOfDigits cs).map fun n => (n : Int)

/-- `new_site` on POST: `int(request.form['vlan_id'])` (modelled by
`pyInt`; failure is an uncaught `ValueError`, carried on the
`Except.error` side), then the config dict is built and written with no
further validation. Returns the persisted record and the filesystem
operations performed. -/
def new_site (form : SiteForm) : Except String (SiteConfig × List FsOp) :=
  match pyInt form.vlan_id with
  | none => .error ("ValueError: invalid literal for int: " ++ form.vlan_id)
  | some v =>
      let c : SiteConfig :=
        { site_name := form.site_name, vlan_id := v, ip_range := form.ip_range,
          system_disks := form.system_disks, data_disks := form.data_disks,
          raid_level := form.raid_level, api_host := form.api_host,
          api_user := form.api_user }
      .ok (c, saveSiteOps c)

/-! ## Listing handler (`sites`, app.py lines 43-54) -/

/-- A stored file's raw content, abstracted by whether `yaml.safe_load`
accepts it: a parseable file carries its value tree, a malformed one the
reason `yaml.safe_load` raises. -/
inductive FileContent where
  | parsed : Yaml → FileContent
  | malformed : String → FileContent

/-- `yaml.safe_load` on one file: returns the tree or raises. -/
def safeLoad : FileContent → Except String Yaml
  | .parsed y => .ok y
  | .malformed reason => .error reason

/-- `config['filename'] = config_file.name`: item assignment on the loaded
value; raises `TypeError` when the loaded value is not a dict. -/
def withFilename (name : String) : Yaml → Except String Yaml
  | .map kvs => .ok (.map (setEntry kvs "filename" (.str name)))
  | _ => .error "TypeError: item assignment on non-dict"

/-- The `sites` view body: iterate over the directory's `*.yml` files, load
each with `yaml.safe_load`, tag it with its filename and append. An
exception anywhere in the loop propagates out of the whole view (the
`Except.error` side). -/
def sitesListing : List (String × FileContent) → Except String (List Yaml)
  | [] => .ok []
  | p :: rest =>
      match (safeLoad p.2).bind (withFilename p.1) with
      | .error e => .error e
      | .ok y =>
          match sitesListing rest with
          | .error e => .error e
          | .ok ys => .ok (y :: ys)

/-! ## Deploy and USB handlers (app.py lines 89-132) -/

inductive FlashCategory where
  | message
  | error
deriving DecidableEq, Repr

/-- One `flash(...)` call: text plus category (Flask's default category for
a plain `flash(msg)` is `message`). -/
structure Flash where
  text : String
  category : FlashCategory
deriving DecidableEq, Repr

/-- The `deploy` handler (app.py lines 113-132): builds the Ansible
invocation from the form's site name and runs it, with no lookup in the
config store beforehand (the `store` argument is available to the process
but never consulted). Returns the flash shown and the list of runner
invocations performed. -/
def deploy (store : FileMap) (runner : SubprocessCall → RunResult)
    (siteName : String) : Flash × List SubprocessCall :=
  let call := deployCall siteName
  match runner call with
  | .completed rc _ err =>
      if rc = 0 then
        (⟨"Deployment completed successfully!", .message⟩, [call])
      else
        (⟨"Deployment failed: " ++ err, .error⟩, [call])
  | .raised e => (⟨"Error: " ++ e, .error⟩, [call])

/-- The `create_usb` handler (app.py lines 89-111): same shape for the USB
bootstrap tool. -/
def create_usb (runner : SubprocessCall → RunResult)
    (siteName usbDevice : String) : Flash × List SubprocessCall :=
  let call := createUsbCall siteName usbDevice
  match runner call with
  | .completed rc _ err =>
      if rc = 0 then
        (⟨"USB bootstrap drive created successfully!", .message⟩, [call])
      else
        (⟨"Error creating USB drive: " ++ err, .error⟩, [call])
  | .raised e => (⟨"Error: " ++ e, .error⟩, [call])

/-! ## Status aggregation (app.py lines 144-204) -/

/-- Result of `get_system_info`: either all five fields (hostname,
zfs_pools, disk_usage, memory, timestamp) or the single error-marker dict
produced by the one `except` clause around the whole body. -/
inductive SystemInfo where
  | ok : String → Yaml → String → String → String → SystemInfo
  | errorMarker : String → SystemInfo

/-- `get_system_info` (app.py lines 144-167), parameterized by the host
name, the timestamp, the three subprocess outcomes, and `json.loads`
(`jsonOf`, applied to the zpool stdout only when its exit code is 0; a
parse failure raises). Any raise inside the `try` falls to the single
`except` returning the error marker. -/
def get_system_info (jsonOf : String → Except String Yaml)
    (host now : String) (zfs df free : RunResult) : SystemInfo :=
  match zfs with
  | .raised e => .errorMarker e
  | .completed zrc zout _ =>
    match (if zrc = 0 then jsonOf zout else .ok (.map [])) with
    | .error e => .errorMarker e
    | .ok zfsStatus =>
      match df with
      | .raised e => .errorMarker e
      | .completed _ dout _ =>
        match free with
        | .raised e => .errorMarker e
        | .completed _ mout _ =>
          .ok host zfsStatus dout.trim mout.trim now

/-- Result of `get_git_status`: the status text and commit list, or the
error marker from its `except` clause. -/
inductive GitStatus where
  | ok : String → List String → GitStatus
  | errorMarker : String → GitStatus
deriving DecidableEq, Repr

/-- `get_git_status` (app.py lines 186-204): porcelain status then a
5-entry log, both stripped; the log is split on newlines, with the empty
string giving the empty list. -/
def get_git_status (statusRun logRun : RunResult) : GitStatus :=
  match statusRun with
  | .raised e => .errorMarker e
  | .completed _ sout _ =>
    match logRun with
    | .raised e => .errorMarker e
    | .completed _ lout _ =>
      let commits := lout.trim
      .ok sout.trim (if commits = "" then [] else commits.splitOn "\n")

/-! ## Inventory stub (`get_proxmox_status`, app.py lines 169-184) -/

structure VmRecord where
  name : String
  status : String
  vmid : Int
deriving DecidableEq, Repr

structure Inventory where
  vms : List VmRecord
  containers : List VmRecord
deriving DecidableEq, Repr

/-- The fixed mock data returned by `get_proxmox_status`. -/
def mockInventory : Inventory :=
  { vms := [⟨"truenas", "running", 100⟩, ⟨"nextcloud", "running", 101⟩],
    containers := [⟨"monitoring", "running", 200⟩] }

/-- `get_proxmox_status` (app.py lines 169-184): reads nothing from its
environment (`world` stands for any external state) and returns the mock
literal; the `except` branch would yield `Except.error` but building a
literal cannot raise. -/
def get_proxmox_status {W : Type} (world : W) : Except String Inventory :=
  Except.ok mockInventory

/-- The dashboard's aggregated snapshot (app.py lines 23-41): the three
fragments assembled by the `dashboard` view. -/
structure Dashboard where
  system_info : SystemInfo
  vm_status : Except String Inventory
  git_status : GitStatus

def dashboard (jsonOf : String → Except String Yaml) (host now : String)
    (zfs df free gitS gitL : RunResult) : Dashboard :=
  { system_info := get_system_info jsonOf host now zfs df free,
    vm_status := get_proxmox_status (),
    git_status := get_git_status gitS gitL }

/-! ## Concrete fixtures used by witnesses and counterexamples -/

def lab1Config : SiteConfig :=
  { site_name := "lab1", vlan_id := 50, ip_range := "10.0.50.0/24",
    system_disks := ["/dev/sda"], data_disks := ["/dev/sdb", "/dev/sdc"],
    raid_level := "raidz1", api_host := "pve.lab", api_user := "root@pam" }

/-- A stub runner: tool completes with exit code 0. -/
def okRunner : SubprocessCall → RunResult := fun _ => .completed 0 "out" ""

/-- A stub runner: tool completes with exit code 1 and stderr text. -/
def failRunner : SubprocessCall → RunResult :=
  fun _ => .completed 1 "" "boom"

/-- A `json.loads` behavior that rejects its input (malformed zpool
output). -/
def badJson : String → Except String Yaml :=
  fun s => .error ("Expecting value: " ++ s)

/-- A `json.loads` behavior that accepts everything as an empty object. -/
def okJson : String → Except String Yaml := fun _ => .ok (.map [])

/-- A form submission violating the spec's invariants: empty site name,
negative vlan id. -/
def badForm : SiteForm :=
  { site_name := "", vlan_id := "-5", ip_range := "10.0.0.0/24",
    system_disks := [], data_disks := [], raid_level := "mirror",
    api_host := "h", api_user := "u" }

/-- A store state with one well-formed and one malformed file. -/
def demoFiles : List (String × FileContent) :=
  [("a.yml", .parsed (yamlOfSiteConfig lab1Config)),
   ("b.yml", .malformed "while parsing a block mapping")]

/-! ## Helper lemmas -/

theorem strListOf_map_str (l : List String) :
    strListOf (l.map Yaml.str) = some l := by
  induction l with
  | nil => rfl
  | cons a t ih => simp [strListOf, Yaml.asStr, ih]

theorem lookup_setEntry (fs : FileMap) (k : String) (v : Yaml) :
    (setEntry fs k v).lookup k = some v := by
  induction fs with
  | nil => simp [setEntry, List.lookup]
  | cons e rest ih =>
      by_cases h : k == e.1
      · simp [setEntry, h, List.lookup]
      · simp [setEntry, h, List.lookup, ih]

theorem siteConfig_yaml_roundtrip (c : SiteConfig) :
    siteConfigOfYaml (yamlOfSiteConfig c) = some c := by
  simp [siteConfigOfYaml, yamlOfSiteConfig, Yaml.lookup, List.lookup,
    Yaml.asStr, Yaml.asInt, Yaml.asStrList, strListOf_map_str, Option.bind]

/-! ## Claim theorems -/

/-- C2: for every `siteName` string, including ones carrying shell
metacharacters, the vector executed by `create_usb` has the fixed
five-argument structure (tool path, `--site-config`, one path argument,
`--usb-device`, one device argument), no shell interprets it
(`shell=False`), `siteName` appears literally inside exactly the third
argument, and the other four arguments are the same for every `siteName`. -/
theorem createUsb_injection_safe (s d : String) :
    (createUsbCall s d).shell = false ∧
    (createUsbCall s d).argv.length = 5 ∧
    (createUsbCall s d).argv.get? 0 =
      some "/opt/brewnix/vendor/proxmox-nas/bootstrap/create-nas-usb.sh" ∧
    (createUsbCall s d).argv.get? 1 = some "--site-config" ∧
    (createUsbCall s d).argv.get? 2 =
      some ("/opt/brewnix/config/sites/" ++ s ++ ".yml") ∧
    (createUsbCall s d).argv.get? 3 = some "--usb-device" ∧
    (createUsbCall s d).argv.get? 4 = some d ∧
    (∀ s' : String,
      (createUsbCall s' d).argv.eraseIdx 2 = (createUsbCall s d).argv.eraseIdx 2) :=
  ⟨rfl, rfl, rfl, rfl, rfl, rfl, rfl, fun _ => rfl⟩

/-- C4 counterexample: the claim says every external-tool invocation runs
with an enforced timeout; the invocations built for site `lab1` and device
`/dev/sdb` pass no timeout at all. -/
theorem timeout_claim_fails_on_lab1 :
    (createUsbCall "lab1" "/dev/sdb").timeout.isSome = false ∧
    (deployCall "lab1").timeout.isSome = false :=
  ⟨rfl, rfl⟩

/-- C4 amended: no subprocess invocation anywhere in the application passes
a timeout; every call waits indefinitely for the tool, and no timed-out
flag exists in the observed result. -/
theorem subprocess_calls_have_no_timeout (s d : String) :
    ((allCalls s d).all fun c => c.timeout.isNone) = true :=
  rfl

/-- C6: saving a valid `SiteConfig` (filename-safe name) to the store and
loading it back by its site name yields an equal record, every field
preserved. -/
theorem save_load_roundtrip (fs : FileMap) (c : SiteConfig)
    (h : '/' ∉ c.site_name.data) :
    storeLoad (storeSave fs c) c.site_name = some c := by
  simp [storeLoad, storeSave, applyOps, saveSiteOps, applyOp,
    lookup_setEntry, siteConfig_yaml_roundtrip]

/-- C6 witness: the round trip at the concrete `lab1` configuration on an
empty store. -/
theorem save_load_roundtrip_lab1 :
    '/' ∉ lab1Config.site_name.data ∧
    storeLoad (storeSave [] lab1Config) "lab1" = some lab1Config :=
  ⟨by decide, save_load_roundtrip [] lab1Config (by decide)⟩

/-- C10: the VM/container inventory poll is a constant function — for any
external world state it returns the same fixed inventory (VMs `truenas`
id 100 and `nextcloud` id 101, container `monitoring` id 200, all
`running`) on the success side, never the error branch. -/
theorem inventory_stub_constant :
    (∀ (W : Type) (w w' : W), get_proxmox_status w = get_proxmox_status w') ∧
    (∀ (W : Type) (w : W), get_proxmox_status w =
      Except.ok
        { vms := [⟨"truenas", "running", 100⟩, ⟨"nextcloud", "running", 101⟩],
          containers := [⟨"monitoring", "running", 200⟩] }) :=
  ⟨fun _ _ _ => rfl, fun _ _ => rfl⟩

/-- C7: for any store and any tool behavior, `deploy s` executes exactly
the argument vector `ansible-playbook <playbook> -e
site_config_file=<config-dir>/<s>.yml` in `/opt/brewnix`; exit code 0 is
classified as the plain success flash (no error category, no stderr), and
a non-zero exit as the failure flash carrying the captured stderr. -/
theorem deploy_invocation_classification (store : FileMap)
    (runner : SubprocessCall → RunResult) (s out err : String) (rc : Int)
    (h : runner (deployCall s) = .completed rc out err) :
    (deployCall s).argv =
      ["ansible-playbook", "/opt/brewnix/vendor/proxmox-nas/ansible/site.yml",
       "-e", "site_config_file=/opt/brewnix/config/sites/" ++ s ++ ".yml"] ∧
    (deployCall s).cwd = some "/opt/brewnix" ∧
    (rc = 0 →
      (deploy store runner s).1 = ⟨"Deployment completed successfully!", .message⟩) ∧
    (rc ≠ 0 →
      (deploy store runner s).1 = ⟨"Deployment failed: " ++ err, .error⟩) := by
  refine ⟨rfl, rfl, ?_, ?_⟩ <;> intro hrc <;> simp [deploy, h, hrc]

/-- C7 witness: deploying `lab1` against a stub runner exiting 0 yields the
success flash. -/
theorem deploy_lab1_success :
    okRunner (deployCall "lab1") = .completed 0 "out" "" ∧
    (deploy [] okRunner "lab1").1 =
      ⟨"Deployment completed successfully!", FlashCategory.message⟩ :=
  ⟨rfl, (deploy_invocation_classification [] okRunner "lab1" "out" "" 0 rfl).2.2.1 rfl⟩

/-- C3 counterexample: `missing-site` was never saved (the store is empty,
`storeLoad` finds nothing), yet the deploy handler does not return a
NotFound — it invokes the Process Runner once (call count 1, not 0). -/
theorem deploy_missing_site_invokes_runner :
    storeLoad [] "missing-site" = none ∧
    (deploy [] failRunner "missing-site").2.length = 1 :=
  ⟨rfl, rfl⟩

/-- C3 amended: the deploy handler performs no existence check at all: for
every store state (including one without the requested site) it invokes
the Process Runner exactly once, on the Ansible invocation built from the
requested name; a missing config surfaces only through the tool's own
failure. -/
theorem deploy_always_invokes_runner_once (store : FileMap)
    (runner : SubprocessCall → RunResult) (s : String) :
    (deploy store runner s).2 = [deployCall s] := by
  cases h : runner (deployCall s) with
  | completed rc out err => by_cases hrc : rc = 0 <;> simp [deploy, h, hrc]
  | raised e => simp [deploy, h]

/-- C5 counterexample: the claim says `save` writes atomically via
write-temp-then-rename; the save of the concrete `lab1` record performs no
rename operation, and its one write goes directly to the final config
path. -/
theorem save_lab1_has_no_rename :
    ((saveSiteOps lab1Config).any FsOp.isRename) = false ∧
    ((saveSiteOps lab1Config).any
      (FsOp.isDirectWriteTo (configPath "lab1"))) = true := by
  constructor <;> rfl

/-- C5 amended: `save` creates the backing directory if absent (first
operation) and then writes the serialized record directly to the final
path: exactly one write, targeting the final file, and no rename — so the
write is not atomic and a crash mid-write can leave a partial file. -/
theorem save_writes_final_path_directly (c : SiteConfig) :
    (saveSiteOps c).get? 0 = some (FsOp.mkdirAll "/opt/brewnix/config/sites") ∧
    ((saveSiteOps c).any FsOp.isRename) = false ∧
    (saveSiteOps c).countP (FsOp.isDirectWriteTo (configPath c.site_name)) = 1 := by
  refine ⟨rfl, rfl, ?_⟩
  simp [saveSiteOps, List.countP, List.countP.go, FsOp.isDirectWriteTo]

/-- C8 counterexample: a store with one well-formed and one malformed file;
the claim says the listing still returns the well-formed record with an
explicit ParseError for the other, but the view dies as a whole with the
uncaught parse error and returns no record. -/
theorem listing_dies_on_malformed :
    sitesListing demoFiles = .error "while parsing a block mapping" := by
  rfl

/-- C8 amended: a malformed stored record is not skipped-and-reported: its
parse exception escapes the loop and aborts the entire listing, so
whenever any file of the store is malformed the view returns an error and
none of the well-formed records. -/
theorem listing_fails_whenever_any_file_malformed
    (files : List (String × FileContent)) (name reason : String)
    (h : (name, FileContent.malformed reason) ∈ files) :
    ∃ e, sitesListing files = .error e := by
  induction files with
  | nil => cases h
  | cons p rest ih =>
      rcases List.mem_cons.mp h with hp | hr
      · subst hp
        exact ⟨reason, rfl⟩
      · cases hload : (safeLoad p.2).bind (withFilename p.1) with
        | error e => exact ⟨e, by simp [sitesListing, hload]⟩
        | ok y =>
            obtain ⟨e, he⟩ := ih hr
            exact ⟨e, by simp [sitesListing, hload, he]⟩

/-- C8 witness: the amended statement applied to the concrete two-file
store. -/
theorem listing_fails_on_demo_store :
    ∃ e, sitesListing demoFiles = .error e :=
  listing_fails_whenever_any_file_malformed demoFiles "b.yml"
    "while parsing a block mapping" (List.Mem.tail _ (List.Mem.head _))

/-- C9 counterexample: a submission with an empty site name and vlan id -5
violates the claimed invariants, yet it is not rejected: the handler
accepts it and writes the record (site_name empty, vlan_id -5, one direct
write to the store). -/
theorem invalid_form_is_persisted :
    (new_site badForm).toOption.map
        (fun p => (p.1.site_name, p.1.vlan_id,
                   p.2.any (FsOp.isDirectWriteTo (configPath "")))) =
      some ("", -5, true) := by
  rfl

/-- C9 amended: the handler enforces none of the claimed invariants: any
submission whose vlan field parses as an integer — empty site name,
non-positive vlan id, duplicate name (existing record silently replaced)
alike — is persisted verbatim, with the form's disk lists (always lists,
never null) carried over; the only rejection is an unparseable vlan field,
surfaced as an uncaught ValueError rather than a ValidationError. -/
theorem new_site_persists_without_validation (form : SiteForm) (v : Int)
    (h : pyInt form.vlan_id = some v) :
    (∃ c ops, new_site form = .ok (c, ops) ∧
      c.site_name = form.site_name ∧ c.vlan_id = v ∧
      c.system_disks = form.system_disks ∧ c.data_disks = form.data_disks ∧
      (ops.any (FsOp.isDirectWriteTo (configPath form.site_name))) = true) ∧
    (∀ form' : SiteForm, pyInt form'.vlan_id = none →
      ∃ e, new_site form' = .error e) := by
  constructor
  · exact
      let cfg : SiteConfig :=
        { site_name := form.site_name, vlan_id := v, ip_range := form.ip_range,
          system_disks := form.system_disks, data_disks := form.data_disks,
          raid_level := form.raid_level, api_host := form.api_host,
          api_user := form.api_user }
      ⟨cfg, saveSiteOps cfg, by simp [new_site, h], rfl, rfl, rfl, rfl,
       by simp [saveSiteOps, FsOp.isDirectWriteTo]⟩
  · intro form' h'
    exact ⟨"ValueError: invalid literal for int: " ++ form'.vlan_id,
           by simp [new_site, h']⟩

/-- C9 witness: the amended statement at the concrete invalid form
(empty name, vlan -5). -/
theorem new_site_persists_badForm :
    pyInt badForm.vlan_id = some (-5) ∧
    ∃ c ops, new_site badForm = .ok (c, ops) ∧
      c.site_name = badForm.site_name ∧ c.vlan_id = -5 ∧
      c.system_disks = badForm.system_disks ∧
      c.data_disks = badForm.data_disks ∧
      (ops.any (FsOp.isDirectWriteTo (configPath badForm.site_name))) = true :=
  ⟨by rfl, (new_site_persists_without_validation badForm (-5) (by rfl)).1⟩

/-- C1 counterexample: exactly one of the four status sources fails — the
pool-health query exits 0 but its output is malformed JSON — while disk
usage and memory complete normally; the claim says the snapshot still
carries disk and memory data with a failure marker only on the pool field,
but `get_system_info` collapses to the single error marker, populating
nothing. -/
theorem snapshot_claim_fails_on_malformed_zpool :
    get_system_info badJson "nas" "t0" (.completed 0 "not json" "")
        (.completed 0 "dfout" "") (.completed 0 "memout" "")
      = SystemInfo.errorMarker "Expecting value: not json" := by
  rfl

/-- C1 amended: failure isolation holds only along the function boundary
and for non-zero exits: a version-control failure degrades only the repo
fragment of the dashboard (system info and inventory still populated), and
a non-zero exit of the pool-health query degrades only the pools field (to
an empty object) with disk and memory still populated; but a launch error
of any system command or malformed pool-health JSON replaces the whole
system-info fragment — hostname, pools, disk usage and memory together —
with one error marker. -/
theorem status_failure_isolation (jsonOf : String → Except String Yaml)
    (host now zout zerr dout derr mout merr e : String) (rc a b : Int)
    (gitL : RunResult) (hrc : rc ≠ 0) :
    (dashboard jsonOf host now (.completed rc zout zerr)
        (.completed a dout derr) (.completed b mout merr)
        (.raised e) gitL).system_info
      = SystemInfo.ok host (.map []) dout.trim mout.trim now ∧
    (dashboard jsonOf host now (.completed rc zout zerr)
        (.completed a dout derr) (.completed b mout merr)
        (.raised e) gitL).git_status = GitStatus.errorMarker e ∧
    (dashboard jsonOf host now (.completed rc zout zerr)
        (.completed a dout derr) (.completed b mout merr)
        (.raised e) gitL).vm_status = Except.ok mockInventory := by
  refine ⟨?_, rfl, rfl⟩
  simp [dashboard, get_system_info, hrc]

/-- C1 witness: the amended statement at a concrete environment — pool
query exits 1, disk and memory succeed, the version-control launch
fails. -/
theorem status_failure_isolation_concrete :
    (1 : Int) ≠ 0 ∧
    (dashboard okJson "nas" "t0" (.completed 1 "" "zerr")
        (.completed 0 "df" "") (.completed 0 "mem" "")
        (.raised "git spawn failed") (.completed 0 "" "")).system_info
      = SystemInfo.ok "nas" (.map []) "df".trim "mem".trim "t0" :=
  ⟨by decide,
   (status_failure_isolation okJson "nas" "t0" "" "zerr" "df" "" "mem" ""
     "git spawn failed" 1 0 0 (.completed 0 "" "") (by decide)).1⟩

end ProxmoxNas
